import Mathlib

/-!
Shallow embedding of the browser-use-mcp server (`src/index.ts`) and its
live-view widget poller (`src/resources/browser-live-view.tsx`).

The server exposes two tool handlers (`run_browser_task`, `get_task_result`)
and one HTTP endpoint (`GET /api/task/:taskId`).  Both status paths parse a
JSON payload returned by the remote Browser Use provider and normalize it
into a snapshot with fields `done`, `isSuccess`, `taskOutput`, `totalSteps`.

JavaScript's distinction between an absent object field (`undefined`) and an
explicit `null` matters here (`is_success !== null` is `true` when
`is_success` is `undefined`), so JSON fields are embedded as the three-valued
type `JField`.
-/

set_option autoImplicit false

/-- A JSON object field as observed from JavaScript: absent (`undefined`),
explicitly `null`, or carrying a value. -/
inductive JField (α : Type) where
  | undef
  | null
  | val (a : α)
  deriving DecidableEq, Repr

/-- JavaScript `x ?? d` for a non-nullish default `d`: both `undefined` and
`null` are replaced by `d`. -/
def jNullish {α : Type} (x : JField α) (d : α) : α :=
  match x with
  | .val a => a
  | _ => d

/-- JavaScript `x ?? null`: collapses `undefined` into `null`; the result is
an option (`none` = JS `null`). -/
def jOrNull {α : Type} (x : JField α) : Option α :=
  match x with
  | .val a => some a
  | _ => none

/-- View an option (a JS value that is either `null` or present) back as a
`JField`, for comparing the two handlers' outputs over a common domain. -/
def ofOption {α : Type} (x : Option α) : JField α :=
  match x with
  | some a => .val a
  | none => .null

/-- The provider's task-status payload, as parsed from the inner JSON text:
the three fields the server reads (`is_success`, `task_output`,
`total_steps`).  JSON numbers are embedded as integers. -/
structure RawStatus where
  is_success : JField Bool
  task_output : JField String
  total_steps : JField Int
  deriving DecidableEq, Repr

instance : Inhabited RawStatus := ⟨⟨.undef, .undef, .undef⟩⟩

/-- `JSON.parse("\x7b\x7d")`: the empty object every field reads as
`undefined`. -/
def emptyRawStatus : RawStatus := ⟨.undef, .undef, .undef⟩

/-- The object returned by the `get_task_result` tool handler
(`src/index.ts` lines 108-113).  `isSuccess` and `taskOutput` are passed
through unchanged, so they keep the absent/null distinction. -/
structure ToolSnapshot where
  isSuccess : JField Bool
  taskOutput : JField String
  totalSteps : Int
  done : Bool
  deriving DecidableEq, Repr

/-- `get_task_result` normalization (`src/index.ts` lines 108-113):
`isSuccess := status.is_success`, `taskOutput := status.task_output`,
`totalSteps := status.total_steps ?? 0`,
`done := status.is_success !== null`.  Note that in JavaScript
`undefined !== null` evaluates to `true`, which `decide (x ≠ JField.null)`
mirrors: `JField.undef ≠ JField.null`. -/
def getTaskResultSnapshot (status : RawStatus) : ToolSnapshot :=
  { isSuccess := status.is_success
    taskOutput := status.task_output
    totalSteps := jNullish status.total_steps 0
    done := decide (status.is_success ≠ JField.null) }

/-- The body returned by `GET /api/task/:taskId` on success
(`src/index.ts` lines 140-145).  Here `isSuccess` and `taskOutput` are
coalesced with `?? null`, so they are plain options. -/
structure EndpointSnapshot where
  done : Bool
  isSuccess : Option Bool
  taskOutput : Option String
  totalSteps : Int
  deriving DecidableEq, Repr

/-- Endpoint normalization (`src/index.ts` lines 140-145):
`done := data.is_success !== null && data.is_success !== undefined`,
`isSuccess := data.is_success ?? null`, `taskOutput := data.task_output ?? null`,
`totalSteps := data.total_steps ?? 0`. -/
def apiTaskSnapshot (data : RawStatus) : EndpointSnapshot :=
  { done := decide (data.is_success ≠ JField.null) && decide (data.is_success ≠ JField.undef)
    isSuccess := jOrNull data.is_success
    taskOutput := jOrNull data.task_output
    totalSteps := jNullish data.total_steps 0 }

/-! ### The fetch boundary

`callBrowserUseAPI` (`src/index.ts` lines 18-39) and the endpoint's inline
fetch (`src/index.ts` lines 125-139) consume an HTTP exchange with the
provider.  The exchange is embedded as `FetchRes`: either the fetch promise
rejects, or an HTTP response arrives whose JSON body either fails to parse
or is a JSON-RPC envelope with an optional `error.message` and an inner
`result.content[0].text` in one of four states. -/

/-- State of `json.result?.content?.[0]?.text` and of parsing it.
`missing` = the optional chain yields `undefined`; `emptyText` = the text is
the empty string (falsy in JS; `JSON.parse("")` throws with the carried
message); `invalid` = non-empty text that `JSON.parse` rejects with the
carried message; `valid` = text parsing to a payload of type `α`. -/
inductive InnerText (α : Type) where
  | missing
  | emptyText (errMsg : String)
  | invalid (errMsg : String)
  | valid (value : α)
  deriving DecidableEq, Repr

/-- The HTTP response body: either `res.json()` rejects (non-JSON body), or
a JSON-RPC envelope with optional `error.message` and inner content text. -/
inductive RpcBody (α : Type) where
  | badJson (errMsg : String)
  | parsed (rpcError : Option String) (content : InnerText α)
  deriving DecidableEq, Repr

/-- One provider exchange: the fetch rejects outright, or an HTTP response
with its `ok` flag, numeric status, and body arrives. -/
inductive FetchRes (α : Type) where
  | netThrow (errMsg : String)
  | http (ok : Bool) (status : Nat) (body : RpcBody α)
  deriving DecidableEq, Repr

/-- `callBrowserUseAPI` (`src/index.ts` lines 18-39), as the map from an
exchange to either the parsed payload or the thrown error message:
non-2xx throws `"API request failed: <status>"` before the body is read;
a provider `error` payload throws its message; a missing or empty inner
text throws `"Empty response from API"`; otherwise the inner text is
`JSON.parse`d. -/
def callBrowserUseAPI {α : Type} (f : FetchRes α) : Except String α :=
  match f with
  | .netThrow m => .error m
  | .http ok status body =>
    if ok = false then .error ("API request failed: " ++ toString status)
    else
      match body with
      | .badJson m => .error m
      | .parsed (some m) _ => .error m
      | .parsed none content =>
        match content with
        | .missing => .error "Empty response from API"
        | .emptyText _ => .error "Empty response from API"
        | .invalid m => .error m
        | .valid v => .ok v

/-! ### Tool handlers -/

/-- The `start` result payload parsed from a successful `browser_task`
call: the three provider-assigned identifiers the handler reads. -/
structure StartResult where
  task_id : String
  session_id : String
  live_url : String
  deriving DecidableEq, Repr

/-- Props handed to the `browser-live-view` widget
(`src/index.ts` lines 73-79). -/
structure WidgetProps where
  taskId : String
  sessionId : String
  liveUrl : String
  task : String
  model : String
  deriving DecidableEq, Repr

/-- A tool handler's result: an `error(...)` message, a `widget(...)`
payload with its text output, or an `object(...)` snapshot. -/
inductive ToolResult where
  | errorMsg (message : String)
  | widgetOut (props : WidgetProps) (output : String)
  | objectOut (snapshot : ToolSnapshot)
  deriving DecidableEq, Repr

/-- The `arguments` object of the outbound `tools/call` request: either
`\x7btask, model, max_steps\x7d` for `browser_task` or `\x7btask_id\x7d` for
`monitor_task`. -/
inductive RemoteArgs where
  | browserTaskArgs (task : String) (model : Option String) (max_steps : Nat)
  | monitorTaskArgs (task_id : String)
  deriving DecidableEq, Repr

/-- A handler either returns without reaching the network
(`immediate`), or issues one remote tool call (with the given remote tool
name and arguments) and maps the exchange's outcome to a result. -/
inductive HandlerAction (ρ α : Type) where
  | immediate (result : α)
  | remoteCall (remoteTool : String) (args : RemoteArgs) (k : FetchRes ρ → α)

/-- The continuation a handler applies to a given exchange, if it reaches
the network at all. -/
def handlerResponds {ρ α : Type} (a : HandlerAction ρ α) (f : FetchRes ρ) : Option α :=
  match a with
  | .immediate _ => none
  | .remoteCall _ _ k => some (k f)

/-- The acknowledgment text of `run_browser_task`
(`src/index.ts` lines 80-82). -/
def ackMessage (taskId : String) : String :=
  "Browser task started — watching live in the widget. Task ID: " ++ taskId

/-- The `run_browser_task` handler (`src/index.ts` lines 61-87).  With the
credential empty it returns `error(...)` before any network call; otherwise
it calls the remote `browser_task` tool and on success returns the widget
payload `\x7btaskId, sessionId, liveUrl, task, model ?? "browser-use-2.0"\x7d`
with the acknowledgment text; a thrown error becomes
`error("Failed to start browser task: " + message)`. -/
def runBrowserTask (apiKey task : String) (model : Option String) (maxSteps : Nat) :
    HandlerAction StartResult ToolResult :=
  if apiKey = "" then
    .immediate (.errorMsg "BROWSER_USE_API_KEY environment variable is not set")
  else
    .remoteCall "browser_task" (.browserTaskArgs task model maxSteps) (fun f =>
      match callBrowserUseAPI f with
      | .ok r =>
        .widgetOut
          ⟨r.task_id, r.session_id, r.live_url, task, model.getD "browser-use-2.0"⟩
          (ackMessage r.task_id)
      | .error m => .errorMsg ("Failed to start browser task: " ++ m))

/-- The `get_task_result` handler (`src/index.ts` lines 101-117): credential
check first, then one remote `monitor_task` call whose payload is
normalized by `getTaskResultSnapshot`; a thrown error becomes
`error("Failed to get task result: " + message)`. -/
def getTaskResult (apiKey taskId : String) : HandlerAction RawStatus ToolResult :=
  if apiKey = "" then
    .immediate (.errorMsg "BROWSER_USE_API_KEY not set")
  else
    .remoteCall "monitor_task" (.monitorTaskArgs taskId) (fun f =>
      match callBrowserUseAPI f with
      | .ok status => .objectOut (getTaskResultSnapshot status)
      | .error m => .errorMsg ("Failed to get task result: " ++ m))

/-! ### The status publication endpoint -/

/-- The endpoint's response: `c.json(snapshot)` (HTTP 200) or
`c.json(\x7berror\x7d, 500)`. -/
inductive EndpointResponse where
  | ok200 (snapshot : EndpointSnapshot)
  | err500 (error : String)
  deriving DecidableEq, Repr

/-- Whether an endpoint response is the error-shaped 500 body. -/
def isErrorShaped (r : EndpointResponse) : Bool :=
  match r with
  | .err500 _ => true
  | .ok200 _ => false

/-- Whether an endpoint response is the snapshot-shaped 200 body. -/
def isOkShaped (r : EndpointResponse) : Bool :=
  match r with
  | .err500 _ => false
  | .ok200 _ => true

/-- The `GET /api/task/:taskId` handler (`src/index.ts` lines 122-149).
Unlike `callBrowserUseAPI` it never checks `res.ok` and never reads
`json.error`; it parses `json.result?.content?.[0]?.text ?? "\x7b\x7d"` and
normalizes whatever comes out, so a missing result content yields the
snapshot of the empty object.  Only a thrown exception (fetch rejection,
non-JSON body, unparsable inner text) reaches the `catch` and produces the
500 error body. -/
def apiTaskHandler (f : FetchRes RawStatus) : EndpointResponse :=
  match f with
  | .netThrow m => .err500 m
  | .http _ _ body =>
    match body with
    | .badJson m => .err500 m
    | .parsed _ content =>
      match content with
      | .missing => .ok200 (apiTaskSnapshot emptyRawStatus)
      | .emptyText m => .err500 m
      | .invalid m => .err500 m
      | .valid data => .ok200 (apiTaskSnapshot data)

/-! ### The live-view widget poller -/

/-- The widget's `TaskResult` (`src/resources/browser-live-view.tsx`
lines 26-32). -/
structure TaskResult where
  isSuccess : Option Bool
  taskOutput : Option String
  totalSteps : Int
  done : Bool
  error : Option String
  deriving DecidableEq, Repr

/-- The terminal result the widget sets on a non-2xx poll response
(`src/resources/browser-live-view.tsx` lines 48-54). -/
def statusCheckFailedResult (status : Nat) : TaskResult :=
  { done := true
    isSuccess := some false
    totalSteps := 0
    taskOutput := none
    error := some ("Status check failed (" ++ toString status ++ ")") }

/-- What one `poll()` iteration observes: the fetch (or `res.json()`)
throws (caught and ignored), the response is non-2xx, or a parsed snapshot
body arrives. -/
inductive PollResponse where
  | netFail (errMsg : String)
  | httpError (status : Nat)
  | okSnap (data : TaskResult)
  deriving DecidableEq, Repr

/-- The poll loop (`src/resources/browser-live-view.tsx` lines 44-66) over
a sequence of observed responses: a thrown fetch error is ignored and
polling continues; a non-2xx response terminates immediately with
`statusCheckFailedResult`; a snapshot terminates when `done`.  The result
is the zero-based index of the terminating iteration and the final
`result` value, or `none` when the trace ends with the widget still
polling. -/
def pollRun : List PollResponse → Option (Nat × TaskResult)
  | [] => none
  | .netFail _ :: rest => (pollRun rest).map (fun p => (p.1 + 1, p.2))
  | .httpError st :: _ => some (0, statusCheckFailedResult st)
  | .okSnap d :: rest =>
    if d.done then some (0, d)
    else (pollRun rest).map (fun p => (p.1 + 1, p.2))

/-- The fixed wait between successive polls: `setInterval(..., 4000)`
(`src/resources/browser-live-view.tsx` line 65). -/
def pollIntervalMs : Nat := 4000

/-- The endpoint's 200 body as the widget reads it (`error` is absent). -/
def snapToResult (s : EndpointSnapshot) : TaskResult :=
  { isSuccess := s.isSuccess
    taskOutput := s.taskOutput
    totalSteps := s.totalSteps
    done := s.done
    error := none }

/-- The poll trace induced by a sequence of provider payloads, each
normalized by the endpoint and successfully delivered to the widget. -/
def traceOf (raws : List RawStatus) : List PollResponse :=
  raws.map (fun r => .okSnap (snapToResult (apiTaskSnapshot r)))

/-- Modelled from the spec's words for comparison: the first poll iteration
at which the normalized snapshot's success indicator is non-null, paired
with that payload ("it must return on the very first iteration where
`isSuccess` becomes non-null"). -/
def specFirstResolved : List RawStatus → Option (Nat × RawStatus)
  | [] => none
  | r :: rest =>
    if (apiTaskSnapshot r).isSuccess ≠ none then some (0, r)
    else (specFirstResolved rest).map (fun p => (p.1 + 1, p.2))

/-- Responses that do not terminate the poll loop: ignored fetch errors and
snapshots that are not `done`. -/
def nonTerminal (x : PollResponse) : Bool :=
  match x with
  | .netFail _ => true
  | .okSnap d => !d.done
  | .httpError _ => false

/-! ## Helper lemmas -/

/-- In an endpoint snapshot, `done` holds exactly when the coalesced
success indicator is non-null. -/
theorem apiTaskSnapshot_done_iff (r : RawStatus) :
    (apiTaskSnapshot r).done = true ↔ (apiTaskSnapshot r).isSuccess ≠ none := by
  rcases r with ⟨s, o, t⟩
  cases s <;> simp [apiTaskSnapshot, jOrNull]

/-- The poll loop over a trace of endpoint-normalized snapshots terminates
exactly at the spec's first resolved iteration, returning that iteration's
snapshot. -/
theorem pollRun_traceOf_eq (raws : List RawStatus) :
    pollRun (traceOf raws) =
      (specFirstResolved raws).map (fun p => (p.1, snapToResult (apiTaskSnapshot p.2))) := by
  induction raws with
  | nil => rfl
  | cons r rest ih =>
    show pollRun (.okSnap (snapToResult (apiTaskSnapshot r)) :: traceOf rest) = _
    by_cases h : (apiTaskSnapshot r).isSuccess = none
    · have hd : (apiTaskSnapshot r).done = false := by
        cases hb : (apiTaskSnapshot r).done
        · rfl
        · exact absurd h (by simpa using (apiTaskSnapshot_done_iff r).mp hb)
      rw [specFirstResolved]
      simp only [pollRun, snapToResult, hd, h, ih, Bool.false_eq_true, if_false, ne_eq,
        not_true_eq_false, Option.map_map]
      cases specFirstResolved rest <;> rfl
    · have hd : (apiTaskSnapshot r).done = true := (apiTaskSnapshot_done_iff r).mpr h
      rw [specFirstResolved, if_pos h]
      simp [pollRun, snapToResult, hd]

/-! ## Claims -/

/-- A provider payload whose `is_success` field is absent (`undefined`). -/
def rawAbsentSuccess : RawStatus := ⟨.undef, .null, .null⟩

/-- Claim C1, counterexample: for a payload whose `is_success` field is
absent (`undefined`), the `get_task_result` tool snapshot does not have
`done = false` with a null `isSuccess`: `undefined !== null` is `true` in
JavaScript, so the tool reports `done = true` and passes the absent value
through. -/
theorem c1_counterexample :
    ¬ ((getTaskResultSnapshot rawAbsentSuccess).done = false ∧
       (getTaskResultSnapshot rawAbsentSuccess).isSuccess = JField.null) := by
  decide

/-- Claim C1, amended: the status endpoint maps both `null` and absent
`is_success` to `done = false, isSuccess = null` and a boolean to
`done = true, isSuccess = <value>`, regardless of the other fields; the
`get_task_result` tool does the same for `null` and boolean values, but an
absent `is_success` yields `done = true` with `isSuccess` absent. -/
theorem c1_amended_tri_state_mapping (o : JField String) (t : JField Int) (b : Bool) :
    (apiTaskSnapshot ⟨.undef, o, t⟩).done = false ∧
    (apiTaskSnapshot ⟨.undef, o, t⟩).isSuccess = none ∧
    (apiTaskSnapshot ⟨.null, o, t⟩).done = false ∧
    (apiTaskSnapshot ⟨.null, o, t⟩).isSuccess = none ∧
    (apiTaskSnapshot ⟨.val b, o, t⟩).done = true ∧
    (apiTaskSnapshot ⟨.val b, o, t⟩).isSuccess = some b ∧
    (getTaskResultSnapshot ⟨.null, o, t⟩).done = false ∧
    (getTaskResultSnapshot ⟨.null, o, t⟩).isSuccess = JField.null ∧
    (getTaskResultSnapshot ⟨.val b, o, t⟩).done = true ∧
    (getTaskResultSnapshot ⟨.val b, o, t⟩).isSuccess = JField.val b ∧
    (getTaskResultSnapshot ⟨.undef, o, t⟩).done = true ∧
    (getTaskResultSnapshot ⟨.undef, o, t⟩).isSuccess = JField.undef := by
  exact ⟨rfl, rfl, rfl, rfl, rfl, rfl, rfl, rfl, rfl, rfl, rfl, rfl⟩

/-- Claim C2, counterexample: for a payload whose `is_success` field is
absent, the tool snapshot and the endpoint snapshot disagree on `done`
(the tool reports `true`, the endpoint `false`). -/
theorem c2_counterexample :
    ¬ ((getTaskResultSnapshot rawAbsentSuccess).done =
       (apiTaskSnapshot rawAbsentSuccess).done) := by
  decide

/-- Claim C2, amended: the `get_task_result` tool and the status endpoint
compute identical `done`, `isSuccess`, `taskOutput` and `totalSteps` for
every payload in which `is_success` and `task_output` are present (possibly
null); when `is_success` is absent the tool reports `done = true` with
`isSuccess` absent while the endpoint reports `done = false` with
`isSuccess = null`, and when `task_output` is absent the tool leaves it
absent while the endpoint reports `null`. -/
theorem c2_amended_tool_endpoint_agree (raw : RawStatus)
    (h1 : raw.is_success ≠ JField.undef) (h2 : raw.task_output ≠ JField.undef) :
    (getTaskResultSnapshot raw).done = (apiTaskSnapshot raw).done ∧
    (getTaskResultSnapshot raw).isSuccess = ofOption (apiTaskSnapshot raw).isSuccess ∧
    (getTaskResultSnapshot raw).taskOutput = ofOption (apiTaskSnapshot raw).taskOutput ∧
    (getTaskResultSnapshot raw).totalSteps = (apiTaskSnapshot raw).totalSteps := by
  rcases raw with ⟨s, o, t⟩
  cases s <;> cases o <;>
    simp_all [getTaskResultSnapshot, apiTaskSnapshot, ofOption, jOrNull]

/-- Claim C2 witness: the amended agreement at the concrete payload
`is_success = true, task_output = null, total_steps = 7`. -/
theorem c2_witness :
    (getTaskResultSnapshot ⟨.val true, .null, .val 7⟩).done =
      (apiTaskSnapshot ⟨.val true, .null, .val 7⟩).done ∧
    (getTaskResultSnapshot ⟨.val true, .null, .val 7⟩).isSuccess =
      ofOption (apiTaskSnapshot ⟨.val true, .null, .val 7⟩).isSuccess ∧
    (getTaskResultSnapshot ⟨.val true, .null, .val 7⟩).taskOutput =
      ofOption (apiTaskSnapshot ⟨.val true, .null, .val 7⟩).taskOutput ∧
    (getTaskResultSnapshot ⟨.val true, .null, .val 7⟩).totalSteps =
      (apiTaskSnapshot ⟨.val true, .null, .val 7⟩).totalSteps :=
  c2_amended_tool_endpoint_agree ⟨.val true, .null, .val 7⟩ (by decide) (by decide)

/-- Claim C3: every snapshot produced by the tool or the endpoint satisfies
the invariant: a non-null success indicator implies `done = true`, and
`done = false` implies a null success indicator.  (For the tool's
passthrough field, "non-null" is the JavaScript `!== null`, which an absent
value also satisfies.) -/
theorem c3_snapshot_invariant (raw : RawStatus) :
    ((getTaskResultSnapshot raw).isSuccess ≠ JField.null →
      (getTaskResultSnapshot raw).done = true) ∧
    ((getTaskResultSnapshot raw).done = false →
      (getTaskResultSnapshot raw).isSuccess = JField.null) ∧
    ((apiTaskSnapshot raw).isSuccess ≠ none → (apiTaskSnapshot raw).done = true) ∧
    ((apiTaskSnapshot raw).done = false → (apiTaskSnapshot raw).isSuccess = none) := by
  rcases raw with ⟨s, o, t⟩
  cases s <;> simp [getTaskResultSnapshot, apiTaskSnapshot, jOrNull]

/-- Claim C3 witness: the invariant applied at the resolved payload
`is_success = true`, discharging the non-null hypothesis. -/
theorem c3_witness :
    (getTaskResultSnapshot ⟨.val true, .undef, .undef⟩).done = true ∧
    (apiTaskSnapshot ⟨.val true, .undef, .undef⟩).done = true :=
  ⟨(c3_snapshot_invariant ⟨.val true, .undef, .undef⟩).1 (by decide),
   (c3_snapshot_invariant ⟨.val true, .undef, .undef⟩).2.2.1 (by decide)⟩

/-- A provider exchange in which the provider delivers an error payload:
HTTP 200 with a JSON-RPC body carrying `error.message` and no `result`
content. -/
def errPayloadFetch : FetchRes RawStatus :=
  .http true 200 (.parsed (some "provider error") .missing)

/-- Claim C4, counterexample: when the provider returns an error payload
(valid JSON, no `result` content), the endpoint does not answer with the
500 error-shaped body; it parses the fallback empty object and returns a
200 success-shaped pending snapshot. -/
theorem c4_counterexample :
    apiTaskHandler errPayloadFetch = EndpointResponse.ok200 (apiTaskSnapshot emptyRawStatus) ∧
    isErrorShaped (apiTaskHandler errPayloadFetch) = false := by
  decide

/-- Claim C4, amended: the endpoint returns the 500 error-shaped body
exactly for failures that throw inside the handler — a rejected fetch, a
response body `res.json()` cannot parse, or an inner content text
`JSON.parse` rejects — and never lets a failure propagate (every exchange
yields either the 200 snapshot body or the 500 error body).  A provider
error payload, or a non-2xx response whose body still parses, instead
yields a 200 success-shaped snapshot (of the fallback empty object when the
result content is missing). -/
theorem c4_amended_endpoint_error_handling :
    (∀ m : String, apiTaskHandler (.netThrow m) = .err500 m) ∧
    (∀ (ok : Bool) (st : Nat) (m : String),
      apiTaskHandler (.http ok st (.badJson m)) = .err500 m) ∧
    (∀ (ok : Bool) (st : Nat) (e : Option String) (m : String),
      apiTaskHandler (.http ok st (.parsed e (.invalid m))) = .err500 m) ∧
    (∀ (ok : Bool) (st : Nat) (e : Option String) (m : String),
      apiTaskHandler (.http ok st (.parsed e (.emptyText m))) = .err500 m) ∧
    (∀ (st : Nat) (e : Option String),
      apiTaskHandler (.http false st (.parsed e .missing)) =
        .ok200 (apiTaskSnapshot emptyRawStatus)) ∧
    (∀ f : FetchRes RawStatus,
      isErrorShaped (apiTaskHandler f) = true ∨ isOkShaped (apiTaskHandler f) = true) := by
  refine ⟨fun m => rfl, fun ok st m => rfl, fun ok st e m => rfl, fun ok st e m => rfl,
    fun st e => rfl, ?_⟩
  intro f
  rcases f with m | ⟨ok, st, body⟩
  · exact Or.inl rfl
  · rcases body with m | ⟨e, c⟩
    · exact Or.inl rfl
    · rcases c with _ | m | m | d
      · exact Or.inr rfl
      · exact Or.inl rfl
      · exact Or.inl rfl
      · exact Or.inr rfl

/-- Claim C5: with the credential empty, both the task-starting and the
status-checking tool handlers return an error result immediately — the
`immediate` form, i.e. the remote call is not reached — and each error
message names `BROWSER_USE_API_KEY` (it is the message's leading text). -/
theorem c5_missing_credential (task : String) (model : Option String) (maxSteps : Nat)
    (taskId : String) :
    runBrowserTask "" task model maxSteps =
      HandlerAction.immediate
        (ToolResult.errorMsg "BROWSER_USE_API_KEY environment variable is not set") ∧
    getTaskResult "" taskId =
      HandlerAction.immediate (ToolResult.errorMsg "BROWSER_USE_API_KEY not set") ∧
    (∃ rest, "BROWSER_USE_API_KEY environment variable is not set" =
      "BROWSER_USE_API_KEY" ++ rest) ∧
    (∃ rest, "BROWSER_USE_API_KEY not set" = "BROWSER_USE_API_KEY" ++ rest) := by
  refine ⟨rfl, rfl, ⟨" environment variable is not set", rfl⟩, ⟨" not set", rfl⟩⟩

/-- Claim C6: over any sequence of provider payloads, each normalized by
the endpoint and delivered to the widget, the poll loop terminates exactly
at the first iteration whose snapshot has a non-null `isSuccess` —
returning that iteration's snapshot with no extra iteration — and never
terminates while every observed `isSuccess` is still null; the wait between
successive status queries is the fixed 4000 ms interval. -/
theorem c6_poll_until_resolved :
    (∀ raws : List RawStatus,
      pollRun (traceOf raws) =
        (specFirstResolved raws).map (fun p => (p.1, snapToResult (apiTaskSnapshot p.2)))) ∧
    pollIntervalMs = 4000 :=
  ⟨pollRun_traceOf_eq, rfl⟩

/-- Claim C7: with the credential present, `run_browser_task` issues the
remote call, and on a successful provider reply returns the widget payload
carrying exactly the provider-assigned `task_id`, `session_id` and
`live_url`, the caller's task string unchanged, and the model defaulted to
"browser-use-2.0" when not supplied, together with the acknowledgment text,
which ends in the task id. -/
theorem c7_start_task_payload (apiKey task : String) (model : Option String)
    (maxSteps : Nat) (r : StartResult) (h : apiKey ≠ "") :
    handlerResponds (runBrowserTask apiKey task model maxSteps)
        (FetchRes.http true 200 (RpcBody.parsed none (InnerText.valid r))) =
      some (ToolResult.widgetOut
        ⟨r.task_id, r.session_id, r.live_url, task, model.getD "browser-use-2.0"⟩
        (ackMessage r.task_id)) ∧
    (∃ leadText, ackMessage r.task_id = leadText ++ r.task_id) := by
  constructor
  · rw [runBrowserTask, if_neg h]
    rfl
  · exact ⟨"Browser task started — watching live in the widget. Task ID: ", rfl⟩

/-- Claim C7 witness: the payload at the spec's Scenario A inputs
(`task = "Go to example.com"`, default model, provider reply
`t1 / s1 / https://live/t1`). -/
theorem c7_witness :
    handlerResponds (runBrowserTask "key" "Go to example.com" none 20)
        (FetchRes.http true 200
          (RpcBody.parsed none (InnerText.valid ⟨"t1", "s1", "https://live/t1"⟩))) =
      some (ToolResult.widgetOut
        ⟨"t1", "s1", "https://live/t1", "Go to example.com", "browser-use-2.0"⟩
        (ackMessage "t1")) ∧
    (∃ leadText, ackMessage "t1" = leadText ++ "t1") :=
  c7_start_task_payload "key" "Go to example.com" none 20 ⟨"t1", "s1", "https://live/t1"⟩
    (by decide)

/-- Claim C8: the endpoint's response is a pure function of the provider
exchange — two status queries whose exchanges are identical produce
identical responses (in particular, byte-identical normalized snapshots for
byte-identical payloads). -/
theorem c8_endpoint_deterministic (f g : FetchRes RawStatus) (h : f = g) :
    apiTaskHandler f = apiTaskHandler g := by
  rw [h]

/-- Claim C8 witness: two identical completed-task exchanges produce the
same response. -/
theorem c8_witness :
    apiTaskHandler (.http true 200 (.parsed none
      (.valid ⟨.val true, .val "done", .val 7⟩))) =
    apiTaskHandler (.http true 200 (.parsed none
      (.valid ⟨.val true, .val "done", .val 7⟩))) :=
  c8_endpoint_deterministic _ _ rfl

/-- A provider payload carrying a negative `total_steps` value. -/
def rawNegSteps : RawStatus := ⟨.null, .null, .val (-1)⟩

/-- Claim C9, counterexample: neither handler clamps `total_steps`, so a
provider payload with `total_steps = -1` produces a snapshot whose
`totalSteps` is negative. -/
theorem c9_counterexample :
    ¬ (0 ≤ (getTaskResultSnapshot rawNegSteps).totalSteps ∧
       0 ≤ (apiTaskSnapshot rawNegSteps).totalSteps) := by
  decide

/-- Claim C9, amended: in both the tool's and the endpoint's snapshot,
`totalSteps` equals the provider's `total_steps` value when that field is
present, and 0 when it is absent or null; consequently it is nonnegative
whenever the provider's value is, but a negative provider value passes
through unchanged. -/
theorem c9_amended_total_steps (u : JField Bool) (o : JField String) (n : Int) :
    (0 ≤ n → 0 ≤ (getTaskResultSnapshot ⟨u, o, .val n⟩).totalSteps) ∧
    (0 ≤ n → 0 ≤ (apiTaskSnapshot ⟨u, o, .val n⟩).totalSteps) ∧
    (getTaskResultSnapshot ⟨u, o, .val n⟩).totalSteps = n ∧
    (apiTaskSnapshot ⟨u, o, .val n⟩).totalSteps = n ∧
    (getTaskResultSnapshot ⟨u, o, .undef⟩).totalSteps = 0 ∧
    (apiTaskSnapshot ⟨u, o, .undef⟩).totalSteps = 0 ∧
    (getTaskResultSnapshot ⟨u, o, .null⟩).totalSteps = 0 ∧
    (apiTaskSnapshot ⟨u, o, .null⟩).totalSteps = 0 :=
  ⟨fun h => h, fun h => h, rfl, rfl, rfl, rfl, rfl, rfl⟩

/-- Claim C9 witness: the amended bounds at `total_steps = 7`. -/
theorem c9_witness :
    0 ≤ (getTaskResultSnapshot ⟨.null, .null, .val 7⟩).totalSteps ∧
    0 ≤ (apiTaskSnapshot ⟨.null, .null, .val 7⟩).totalSteps :=
  ⟨(c9_amended_total_steps .null .null 7).1 (by decide),
   (c9_amended_total_steps .null .null 7).2.1 (by decide)⟩

/-- Claim C10: in the widget poller, (1) the first non-2xx response is
terminal: whatever non-terminal responses (ignored fetch errors,
not-yet-done snapshots) precede it and whatever follows it, the loop stops
at its index with exactly the `done = true, isSuccess = false,
error = "Status check failed (<status>)"` result and issues no further
poll; (2) whenever the loop stops at a snapshot response, that snapshot had
`done = true` and is returned as-is; (3) a thrown fetch error is ignored
and polling continues. -/
theorem c10_poller_terminal_behavior :
    (∀ (pre : List PollResponse) (st : Nat) (post : List PollResponse),
      (∀ x ∈ pre, nonTerminal x = true) →
      pollRun (pre ++ PollResponse.httpError st :: post) =
        some (pre.length, statusCheckFailedResult st)) ∧
    (∀ (t : List PollResponse) (i : Nat) (r d : TaskResult),
      pollRun t = some (i, r) → t[i]? = some (PollResponse.okSnap d) →
      d.done = true ∧ r = d) ∧
    (∀ (m : String) (rest : List PollResponse),
      pollRun (PollResponse.netFail m :: rest) =
        (pollRun rest).map (fun p => (p.1 + 1, p.2))) := by
  refine ⟨?_, ?_, fun m rest => rfl⟩
  · intro pre st post hpre
    induction pre with
    | nil => rfl
    | cons x xs ih =>
      have hx : nonTerminal x = true := hpre x (List.mem_cons_self x xs)
      have hxs : ∀ y ∈ xs, nonTerminal y = true :=
        fun y hy => hpre y (List.mem_cons_of_mem x hy)
      cases x with
      | netFail m =>
        show (pollRun (xs ++ _)).map _ = _
        rw [ih hxs]
        rfl
      | httpError st2 => exact (Bool.false_ne_true hx).elim
      | okSnap d =>
        have hdone : d.done = false := by
          simpa [nonTerminal] using hx
        show (if d.done then _ else (pollRun (xs ++ _)).map _) = _
        rw [hdone]
        simp only [Bool.false_eq_true, if_false, ih hxs]
        rfl
  · intro t
    induction t with
    | nil => intro i r d hrun _; simp [pollRun] at hrun
    | cons x xs ih =>
      intro i r d hrun hget
      cases x with
      | netFail m =>
        rw [pollRun] at hrun
        rcases hp : pollRun xs with _ | ⟨j, r2⟩ <;> rw [hp] at hrun
        · simp at hrun
        · have hrun2 : ((j + 1, r2) : Nat × TaskResult) = (i, r) := Option.some.inj hrun
          have hi : j + 1 = i := congrArg Prod.fst hrun2
          have hr : r2 = r := congrArg Prod.snd hrun2
          subst hi
          subst hr
          exact ih j r2 d hp (by simpa using hget)
      | httpError st =>
        rw [pollRun] at hrun
        simp only [Option.some.injEq, Prod.mk.injEq] at hrun
        obtain ⟨hi, hr⟩ := hrun
        subst hi
        simp at hget
      | okSnap d2 =>
        rw [pollRun] at hrun
        by_cases hdone : d2.done
        · rw [if_pos hdone] at hrun
          simp only [Option.some.injEq, Prod.mk.injEq] at hrun
          obtain ⟨hi, hr⟩ := hrun
          subst hi
          have hd2 : d2 = d := by simpa using hget
          subst hd2
          exact ⟨hdone, hr.symm⟩
        · rw [if_neg hdone] at hrun
          rcases hp : pollRun xs with _ | ⟨j, r2⟩ <;> rw [hp] at hrun
          · simp at hrun
          · have hrun2 : ((j + 1, r2) : Nat × TaskResult) = (i, r) := Option.some.inj hrun
            have hi : j + 1 = i := congrArg Prod.fst hrun2
            have hr : r2 = r := congrArg Prod.snd hrun2
            subst hi
            subst hr
            exact ih j r2 d hp (by simpa using hget)

/-- Claim C10 witness: a not-done snapshot followed by a 404 response stops
the loop at index 1 with the status-check-failed result. -/
theorem c10_witness :
    pollRun [PollResponse.okSnap (snapToResult (apiTaskSnapshot emptyRawStatus)),
      PollResponse.httpError 404] =
      some (1, statusCheckFailedResult 404) :=
  c10_poller_terminal_behavior.1
    [PollResponse.okSnap (snapToResult (apiTaskSnapshot emptyRawStatus))] 404 []
    (by intro x hx; simp at hx; subst hx; rfl)
